import Mathlib

/-!
Shallow embedding of the control core of `software/src/main.cpp` of the
ATmega-Soldering-Station repository, together with theorems settling the
frozen claims about its specification.

Conventions: C `uint16_t` values are modelled as `ℕ` with an explicit
`% 65536` wherever the source can overflow; AVR `int` (16-bit) values are
modelled as `ℤ` wrapped with `wrap16` wherever the source can overflow;
C `double` values are modelled as `ℚ` (all constants in the source are
exactly representable and only +, *, /, comparison are used).
-/

namespace Solder

/-- The floor of a rational, written on the raw numerator/denominator pair
(`Int.fdiv` rounds toward negative infinity; the denominator is
positive). -/
def ratFloor (q : ℚ) : ℤ := Int.fdiv q.num q.den

/-- The absolute value of a rational (C `abs` on doubles). -/
def ratAbs (q : ℚ) : ℚ := if q < 0 then -q else q

/-- Conversion of a nonnegative double to `uint16_t` (C truncation toward
zero, which on the nonnegative values arising here is the floor). -/
def toU16 (q : ℚ) : ℕ := Int.toNat (ratFloor q) % 65536

/-- Wrap an integer into the signed 16-bit range, modelling AVR `int`
overflow behaviour. -/
def wrap16 (z : ℤ) : ℤ := (z + 32768) % 65536 - 32768

/-! ### AnalogAcquisition (`denoiseAnalog`, `getChipTemp`, `getVCC`,
`getVIN`, `getColdJ`, main.cpp lines 1187-1259)

Each acquisition loop is modelled as a function of the sequence of raw ADC
conversion results (10-bit hardware values) it consumes; the `uint16_t`
accumulator `result += ADC` wraps at 2^16. -/

/-- The `result += ADC` accumulation loop over `n` conversions with a
`uint16_t` accumulator. -/
def adcAccum {n : ℕ} (samples : Fin n → ℕ) : ℕ :=
  (List.finRange n).foldl (fun acc i => (acc + samples i) % 65536) 0

/-- `denoiseAnalog` (main.cpp 1187-1204): 32 conversions, `result >> 5`. -/
def denoiseAnalog (samples : Fin 32 → ℕ) : ℕ := adcAccum samples / 32

/-- The accumulator stage of `getChipTemp` (main.cpp 1207-1224):
32 conversions, then `result >>= 2` ("devide by 4" in the source). -/
def getChipTempAccum (samples : Fin 32 → ℕ) : ℕ := adcAccum samples / 4

/-- `getChipTemp` (main.cpp 1207-1224): the accumulator stage followed by
`(result - 2594) / 9.76`; the subtraction is 16-bit unsigned. -/
def getChipTemp (samples : Fin 32 → ℕ) : ℚ :=
  (((getChipTempAccum samples + 62942) % 65536 : ℕ) : ℚ) / (244 / 25)

/-- The accumulator stage of `getVCC` (main.cpp 1227-1245): 16 conversions,
then `result >>= 4`. -/
def getVCCAccum (samples : Fin 16 → ℕ) : ℕ := adcAccum samples / 16

/-- `getVCC` (main.cpp 1227-1245): `1125300L / result` returned as
`uint16_t`. -/
def getVCC (samples : Fin 16 → ℕ) : ℕ := 1125300 / getVCCAccum samples % 65536

/-- `getVIN` (main.cpp 1248-1253): `denoiseAnalog(VIN_PIN) * Vcc / 179.474`
returned as `uint16_t`. -/
def getVIN (samples : Fin 32 → ℕ) (vcc : ℕ) : ℕ :=
  toU16 ((denoiseAnalog samples * vcc : ℕ) / (179474 / 1000 : ℚ))

/-- `getColdJ` (main.cpp 1255-1259): `denoiseAnalog(COLDJ_PIN) * 0.9 -
113.836` returned as `uint16_t`. -/
def getColdJ (samples : Fin 32 → ℕ) : ℕ :=
  toU16 ((denoiseAnalog samples : ℚ) * (9 / 10) - 113836 / 1000)

/-! ### QuadratureDecoder (`setRotary`, `getRotary`, `ISR(PCINT0_vect)`,
main.cpp lines 533-545 and 1265-1284)

The shared globals `a0, b0, ab0, count, countMin, countMax, countStep` form
the state.  `ROTARY_TYPE` is 1, so the scale shifts are by one bit and the
double-increment branch of the interrupt handler is active. -/

structure RotaryState where
  a0 : ℕ
  b0 : ℕ
  ab0 : Bool
  count : ℤ
  countMin : ℤ
  countMax : ℤ
  countStep : ℤ
deriving DecidableEq

/-- Arduino `constrain(amt, low, high)`:
`(amt < low) ? low : ((amt > high) ? high : amt)`. -/
def constrain (x lo hi : ℤ) : ℤ := if x < lo then lo else if hi < x then hi else x

/-- `setRotary(rmin, rmax, rstep, rvalue)` (main.cpp 533-539); the shifts
`<< ROTARY_TYPE` are 16-bit `int` arithmetic. -/
def setRotary (st : RotaryState) (ecReverse : Bool) (rmin rmax rstep rvalue : ℤ) :
    RotaryState :=
  { st with
    countMin := wrap16 (rmin * 2)
    countMax := wrap16 (rmax * 2)
    countStep := if ecReverse then -rstep else rstep
    count := wrap16 (rvalue * 2) }

/-- `getRotary()` (main.cpp 542-545): `count >> ROTARY_TYPE`, an arithmetic
right shift. -/
def getRotary (st : RotaryState) : ℤ := Int.fdiv st.count 2

/-- One execution of `ISR(PCINT0_vect)` (main.cpp 1265-1284) on new phase
bits `a` and `b`. -/
def isrStep (st : RotaryState) (a b : ℕ) : RotaryState :=
  if a = st.a0 then st
  else
    let st1 := { st with a0 := a }
    if b = st1.b0 then st1
    else
      let st2 := { st1 with b0 := b }
      let d : ℤ := if a = b then st2.countStep else -st2.countStep
      let st3 := { st2 with
                   count := constrain (wrap16 (st2.count + d)) st2.countMin st2.countMax }
      let st4 :=
        if (decide (a = b)) ≠ st3.ab0 then
          { st3 with
            count := constrain (wrap16 (st3.count + d)) st3.countMin st3.countMax }
        else st3
      { st4 with ab0 := decide (a = b) }

/-- A sequence of interrupt invocations, applied in order. -/
def isrRun (st : RotaryState) (edges : List (ℕ × ℕ)) : RotaryState :=
  edges.foldl (fun s e => isrStep s e.1 e.2) st

/-- Modelled from the spec: the clamp function `clamp(v, min, max)` used by
the specification to describe the claimed behaviour of
`setRange` + `read`. -/
def clampSpec (v lo hi : ℤ) : ℤ := max lo (min v hi)

/-- An arbitrary concrete pre-state for the rotary globals. -/
def rotInit : RotaryState :=
  { a0 := 0, b0 := 0, ab0 := true, count := 0, countMin := 0, countMax := 0, countStep := 0 }

/-! ### Temperature control state (`SLEEPCheck`, `SENSORCheck`,
`calculateTemp`, `Thermostat`, main.cpp lines 366-515)

The firmware is compiled for an N-channel MOSFET, so `HEATER_OFF` is the
pin value 255 and `HEATER_PWM` is `255 - Output`; the physical heater duty
is `255 - pin`.  The globals touched by these routines form `IronState`;
the per-tick ADC sample streams form `IronInputs`. -/

structure IronState where
  heaterPin : ℕ
  output : ℚ
  rawTemp : ℚ
  currentTemp : ℚ
  cjTemp : ℚ
  showTemp : ℕ
  setTemp : ℕ
  setpoint : ℚ
  vin : ℕ
  vcc : ℕ
  sensorCounter : ℕ
  isWorky : Bool
  beepIfWorky : Bool
  tipIsPresent : Bool
  inSleepMode : Bool
  inOffMode : Bool
  inBoostMode : Bool
  sleepTemp : ℕ
  boostTemp : ℕ
  pidEnable : Bool
deriving DecidableEq

/-- The physical heater duty cycle: 0 when the control pin holds
`HEATER_OFF` (255), `Output` when it holds `HEATER_PWM` (255 - Output). -/
def heaterDuty (s : IronState) : ℕ := 255 - s.heaterPin

/-- The pin value written by `analogWrite(CONTROL_PIN, HEATER_PWM)`, i.e.
`255 - Output` truncated to an `int`. -/
def heaterPWMpin (output : ℚ) : ℕ := Int.toNat (ratFloor (255 - output))

/-- `SLEEPCheck` (main.cpp 367-393) applied to the denoised reed reading. -/
def SLEEPCheck (s : IronState) (reedValue : ℕ) : IronState :=
  if reedValue < 32 then
    { s with tipIsPresent := true, inSleepMode := true, inOffMode := false }
  else if reedValue < 192 then
    { s with tipIsPresent := true, inSleepMode := false, inOffMode := false }
  else
    { s with tipIsPresent := false, inSleepMode := true, inOffMode := true }

/-- The live branch of `calculateTemp` (main.cpp 459-462):
`CurrentTemp = RawTemp * 0.836 + 8.91 + (CJTemp - 25)` (the piecewise
calibrated branch below the early `return` is dead code). -/
def calculateTempVal (raw cj : ℚ) : ℚ := raw * (836 / 1000) + 891 / 100 + (cj - 25)

/-- The raw ADC conversion streams consumed during one `SENSORCheck`. -/
structure IronInputs where
  reed : Fin 32 → ℕ
  tip : Fin 32 → ℕ
  coldj : Fin 32 → ℕ
  vinSamples : Fin 32 → ℕ

/-- `analogWrite(CONTROL_PIN, HEATER_OFF)` at the top of `SENSORCheck`
(main.cpp 398). -/
def sensorStepHeaterOff (s : IronState) : IronState := { s with heaterPin := 255 }

/-- The `if (!SensorCounter--)` block of `SENSORCheck` (main.cpp 404-408):
the `uint8_t` counter post-decrements (wrapping 0 to 255) and, when it was
zero, the cold-junction temperature and Vin are refreshed. -/
def sensorStepVinCJ (s : IronState) (inp : IronInputs) : IronState :=
  let s2 := { s with sensorCounter := if s.sensorCounter = 0 then 255 else s.sensorCounter - 1 }
  if s.sensorCounter = 0 then
    { s2 with cjTemp := (getColdJ inp.coldj : ℚ), vin := getVIN inp.vinSamples s.vcc }
  else s2

/-- The conditional heater re-enable of `SENSORCheck` (main.cpp 410-411):
`if (Vin > 11000) analogWrite(CONTROL_PIN, HEATER_PWM)`. -/
def sensorStepHeaterOn (s : IronState) : IronState :=
  if 11000 < s.vin then { s with heaterPin := heaterPWMpin s.output } else s

/-- `RawTemp += (temp - RawTemp)` followed by `calculateTemp()`
(main.cpp 413-415): the smoothing factor is disabled, so the raw sample
fully replaces the previous value. -/
def sensorStepTemp (s : IronState) (temp : ℕ) : IronState :=
  let s5 := { s with rawTemp := (temp : ℚ) }
  { s5 with currentTemp := calculateTempVal s5.rawTemp s5.cjTemp }

/-- The displayed-temperature smoothing of `SENSORCheck` (main.cpp 417-421)
as a function of the previous `ShowTemp`, the `Setpoint` and the current
temperature: snap to the estimate when tracking a stale setpoint or more
than 5 away from it, then snap to the setpoint when within 1 of it. -/
def showSmooth (show0 : ℕ) (setpoint currentTemp : ℚ) : ℕ :=
  let show1 := if ((show0 : ℚ) ≠ setpoint) ∨ (5 < ratAbs ((show0 : ℚ) - currentTemp))
               then toU16 currentTemp else show0
  if ratAbs ((show1 : ℚ) - setpoint) ≤ 1 then toU16 setpoint else show1

/-- The displayed-temperature smoothing step of `SENSORCheck`
(main.cpp 417-421). -/
def sensorStepShow (s : IronState) : IronState :=
  { s with showTemp := showSmooth s.showTemp s.setpoint s.currentTemp }

/-- The working-range update of `SENSORCheck` (main.cpp 423-433); the beep
side effect is not part of the state. -/
def sensorStepWorky (s : IronState) : IronState :=
  if toU16 (ratAbs ((s.setTemp : ℚ) - s.currentTemp)) < 5 then
    { s with isWorky := true, beepIfWorky := false }
  else { s with isWorky := false }

/-- `SENSORCheck` (main.cpp 396-456) up to, but not including, the final
`while (ShowTemp > 500)` loop: heater off, `SLEEPCheck`, temperature
sampling, occasional cold-junction/Vin refresh, conditional heater
re-enable, temperature calculation, displayed-temperature smoothing and
the `isWorky` update, in source order. -/
def SENSORCheckCore (s : IronState) (inp : IronInputs) : IronState :=
  sensorStepWorky (sensorStepShow (sensorStepTemp
    (sensorStepHeaterOn
      (sensorStepVinCJ (SLEEPCheck (sensorStepHeaterOff s) (denoiseAnalog inp.reed)) inp))
    (denoiseAnalog inp.tip)))

/-- One iteration of the body of the final `while (ShowTemp > 500)` loop of
`SENSORCheck` (main.cpp 436-440): the heater is shut off and the buzzer
beeps; no other state is touched and no sensor is re-read. -/
def sensorFaultStep (s : IronState) : IronState := { s with heaterPin := 255 }

/-- `SENSORCheck` as a whole.  The final `while (ShowTemp > 500)` loop
re-tests a variable that nothing in its body modifies, so whenever the
computed displayed temperature exceeds 500 the routine never returns:
this is modelled as `none`. -/
def SENSORCheck (s : IronState) (inp : IronInputs) : Option IronState :=
  if 500 < (SENSORCheckCore s inp).showTemp then none else some (SENSORCheckCore s inp)

/-- The setpoint selection at the top of `Thermostat` (main.cpp 475-483).
`SetTemp + BoostTemp` is 16-bit integer arithmetic. -/
def setpointOf (s : IronState) : ℚ :=
  if s.inOffMode then 0
  else if s.inSleepMode then (s.sleepTemp : ℚ)
  else if s.inBoostMode then (((s.setTemp + s.boostTemp) % 65536 : ℕ) : ℚ)
  else (s.setTemp : ℚ)

/-- The direct (bang-bang) branch of `Thermostat` (main.cpp 497-511). -/
def directOutput (currentTemp setpoint : ℚ) : ℚ :=
  if currentTemp + 50 < setpoint then 255
  else if currentTemp + 25 < setpoint then 128
  else if currentTemp + 5 < setpoint then 32
  else if currentTemp + 1 / 2 < setpoint then 8
  else 0

/-- `Thermostat` (main.cpp 473-515).  The PID library lives outside this
repository; the duty it would compute is taken as the parameter `pidOut`
(the claims below quantify over it).  The heater pin is written only when
`Vin > 11000`. -/
def Thermostat (s : IronState) (pidOut : ℚ) : IronState :=
  let sp := setpointOf s
  let out := if s.pidEnable then pidOut else directOutput s.currentTemp sp
  let s1 := { s with setpoint := sp, output := out }
  if 11000 < s1.vin then { s1 with heaterPin := heaterPWMpin out } else s1

/-! ### Tip calibration commit (`CalibrationScreen`, main.cpp 1074-1090)

After the three measurement steps, `CalTempNew[0..2]` hold the candidate
points (as `uint16_t`), `CalTempNew[3]` the chip temperature; the candidate
is committed to `CalTemp[CurrentTip]` only if the monotonicity check passes
and the user confirms the store menu.  The `+ 10` comparisons are 16-bit
unsigned arithmetic. -/

/-- The validation `(CalTempNew[0] + 10 < CalTempNew[1]) &&
(CalTempNew[1] + 10 < CalTempNew[2])` (main.cpp 1082). -/
def calibValid (p0 p1 p2 : ℕ) : Bool :=
  decide ((p0 + 10) % 65536 < p1) && decide ((p1 + 10) % 65536 < p2)

/-- The commit step of `CalibrationScreen` (main.cpp 1082-1089): `stored` is
the selected tip's calibration row, `confirm` the result of the store
menu. -/
def calibCommit (stored : ℕ → ℕ) (p0 p1 p2 chip : ℕ) (confirm : Bool) : ℕ → ℕ :=
  if calibValid p0 p1 p2 then
    if confirm then
      fun j => if j = 0 then p0 else if j = 1 then p1 else if j = 2 then p2
               else if j = 3 then chip else stored j
    else stored
  else stored

/-! ### Settings and the tip-profile store

The persisted globals (main.cpp 136-152): settings scalars and flags,
`CurrentTip`, `NumberOfTips`, and the `TipName` / `CalTemp` arrays,
modelled as total functions on row/column indices (rows 0..7, name columns
0..5, calibration columns 0..3 are the meaningful region). -/

structure Settings where
  defaultTemp : ℕ
  sleepTemp : ℕ
  boostTemp : ℕ
  time2sleep : ℕ
  time2off : ℕ
  timeOfBoost : ℕ
  mainScrType : ℕ
  pidEnable : Bool
  beepEnable : Bool
  bodyFlip : Bool
  ecReverse : Bool
  currentTip : ℕ
  numberOfTips : ℕ
  tipName : ℕ → ℕ → ℕ
  calTemp : ℕ → ℕ → ℕ

/-- The compile-time defaults (main.cpp 85-152): `TEMP_DEFAULT` 320,
`TEMP_SLEEP` 150, `TEMP_BOOST` 50, timers 5/15/40, main screen 1, PID off,
beep on, no flip, no reverse, one tip named "WMRT" with calibration
(216, 308, 390, 30); all other array entries are zero-initialized. -/
def defaultSettings : Settings where
  defaultTemp := 320
  sleepTemp := 150
  boostTemp := 50
  time2sleep := 5
  time2off := 15
  timeOfBoost := 40
  mainScrType := 1
  pidEnable := false
  beepEnable := true
  bodyFlip := false
  ecReverse := false
  currentTip := 0
  numberOfTips := 1
  tipName := fun i j =>
    if i = 0 then
      if j = 0 then 87 else if j = 1 then 77 else if j = 2 then 82
      else if j = 3 then 84 else 0
    else 0
  calTemp := fun i j =>
    if i = 0 then
      if j = 0 then 216 else if j = 1 then 308 else if j = 2 then 390
      else if j = 3 then 30 else 0
    else 0

/-- `AddTipScreen` (main.cpp 1171-1184): below capacity, the selection moves
to a fresh slot, the count grows, the name entered via `InputNameScreen`
(an external UI flow, passed here as `newName`, with the terminating zero
at column 5) is stored and the default calibration constants are copied;
at capacity only a warning screen is shown. -/
def AddTipScreen (s : Settings) (newName : ℕ → ℕ) : Settings :=
  if s.numberOfTips < 8 then
    let ct := s.numberOfTips
    { s with
      currentTip := ct
      numberOfTips := s.numberOfTips + 1
      tipName := fun i j =>
        if i = ct ∧ j < 6 then (if j = 5 then 0 else newName j % 256)
        else s.tipName i j
      calTemp := fun i j =>
        if i = ct ∧ j < 4 then
          (if j = 0 then 216 else if j = 1 then 308 else if j = 2 then 390 else 30)
        else s.calTemp i j }
  else s

/-- `DeleteTipScreen` (main.cpp 1144-1168): deleting the sole profile only
shows a warning; otherwise, upon confirmation, either the selection index
steps back (when it was the last row) or the following rows are copied one
slot leftward, and the count shrinks. -/
def DeleteTipScreen (s : Settings) (confirm : Bool) : Settings :=
  if s.numberOfTips = 1 then s
  else if confirm then
    let s1 :=
      if s.currentTip = s.numberOfTips - 1 then
        { s with currentTip := s.currentTip - 1 }
      else
        { s with
          tipName := fun i j =>
            if s.currentTip ≤ i ∧ i + 1 < s.numberOfTips ∧ j < 6 then s.tipName (i + 1) j
            else s.tipName i j
          calTemp := fun i j =>
            if s.currentTip ≤ i ∧ i + 1 < s.numberOfTips ∧ j < 4 then s.calTemp (i + 1) j
            else s.calTemp i j }
    { s1 with numberOfTips := s1.numberOfTips - 1 }
  else s

/-- A store already holding its maximum of 8 profiles. -/
def settingsFull : Settings := { defaultSettings with numberOfTips := 8 }

/-! ### EEPROM persistence (`getEEPROM`, `updateEEPROM`, main.cpp 548-621)

The EEPROM is a byte array, modelled as a total function from addresses to
bytes.  `EEPROM.update` writes a `uint8_t` (value-wise the same as an
unconditional write; the change guard only manages wear), `EEPROM.read`
returns a byte. -/

/-- The EEPROM byte array. -/
def Eeprom : Type := ℕ → ℕ

/-- `EEPROM.read(a)`: the stored byte. -/
def eRead (e : Eeprom) (a : ℕ) : ℕ := e a % 256

/-- `EEPROM.update(a, v)` with `v` truncated to `uint8_t`. -/
def eUpd (e : Eeprom) (a v : ℕ) : Eeprom := fun x => if x = a then v % 256 else e x

/-- A C `bool` stored as one byte. -/
def b2n (b : Bool) : ℕ := if b then 1 else 0

/-- A 16-bit read `(EEPROM.read(a) << 8) | EEPROM.read(a+1)`. -/
def readU16 (e : Eeprom) (a : ℕ) : ℕ := eRead e a * 256 + eRead e (a + 1)

/-- One iteration of the tip-writing loop of `updateEEPROM`
(main.cpp 609-620): tip `i` occupies the 14 bytes from `17 + 14*i`: six
name bytes, then high/low byte pairs of the four calibration values. -/
def updateTip (s : Settings) (i : ℕ) (e : Eeprom) : Eeprom :=
  let b := 17 + 14 * i
  eUpd (eUpd (eUpd (eUpd (eUpd (eUpd (eUpd (eUpd (eUpd (eUpd (eUpd (eUpd (eUpd (eUpd e
    b (s.tipName i 0)) (b + 1) (s.tipName i 1)) (b + 2) (s.tipName i 2))
    (b + 3) (s.tipName i 3)) (b + 4) (s.tipName i 4)) (b + 5) (s.tipName i 5))
    (b + 6) (s.calTemp i 0 / 256)) (b + 7) (s.calTemp i 0))
    (b + 8) (s.calTemp i 1 / 256)) (b + 9) (s.calTemp i 1))
    (b + 10) (s.calTemp i 2 / 256)) (b + 11) (s.calTemp i 2))
    (b + 12) (s.calTemp i 3 / 256)) (b + 13) (s.calTemp i 3)

/-- The tip-writing loop of `updateEEPROM` for tips `0 .. n-1`, ascending as
in the source. -/
def updateTips (s : Settings) : ℕ → Eeprom → Eeprom
  | 0, e => e
  | n + 1, e => updateTip s n (updateTips s n e)

/-- The scalar part of `updateEEPROM` (main.cpp 593-607): bytes 2-16. -/
def updateScalars (s : Settings) (e : Eeprom) : Eeprom :=
  eUpd (eUpd (eUpd (eUpd (eUpd (eUpd (eUpd (eUpd (eUpd (eUpd (eUpd (eUpd (eUpd (eUpd (eUpd e
    2 (s.defaultTemp / 256)) 3 s.defaultTemp) 4 (s.sleepTemp / 256)) 5 s.sleepTemp)
    6 s.boostTemp) 7 s.time2sleep) 8 s.time2off) 9 s.timeOfBoost) 10 s.mainScrType)
    11 (b2n s.pidEnable)) 12 (b2n s.beepEnable)) 13 (b2n s.bodyFlip)) 14 (b2n s.ecReverse))
    15 s.currentTip) 16 s.numberOfTips

/-- `updateEEPROM` (main.cpp 591-621): scalars, then the tips. -/
def updateEEPROM (s : Settings) (e : Eeprom) : Eeprom :=
  updateTips s s.numberOfTips (updateScalars s e)

/-- One iteration of the tip-reading loop of `getEEPROM`
(main.cpp 569-580). -/
def loadTip (e : Eeprom) (i : ℕ) (s : Settings) : Settings :=
  let b := 17 + 14 * i
  { s with
    tipName := fun i' j => if i' = i ∧ j < 6 then eRead e (b + j) else s.tipName i' j
    calTemp := fun i' j =>
      if i' = i ∧ j < 4 then eRead e (b + 6 + 2 * j) * 256 + eRead e (b + 7 + 2 * j)
      else s.calTemp i' j }

/-- The tip-reading loop of `getEEPROM` for tips `0 .. n-1`, ascending. -/
def loadTips (e : Eeprom) : ℕ → Settings → Settings
  | 0, s => s
  | n + 1, s => loadTip e n (loadTips e n s)

/-- `EEPROM_IDENT` = 0xE76C. -/
def eepromIdent : ℕ := 59244

/-- `getEEPROM` (main.cpp 548-588): on a matching identifier every field is
loaded from the EEPROM (`s` is the in-memory state at the time of the
call, whose rows beyond the stored count survive); on a mismatch the
identifier is written and the current state is persisted via
`updateEEPROM`. -/
def getEEPROM (s : Settings) (e : Eeprom) : Settings × Eeprom :=
  if readU16 e 0 = eepromIdent then
    (loadTips e (eRead e 16)
      { s with
        defaultTemp := readU16 e 2
        sleepTemp := readU16 e 4
        boostTemp := eRead e 6
        time2sleep := eRead e 7
        time2off := eRead e 8
        timeOfBoost := eRead e 9
        mainScrType := eRead e 10
        pidEnable := decide (eRead e 11 ≠ 0)
        beepEnable := decide (eRead e 12 ≠ 0)
        bodyFlip := decide (eRead e 13 ≠ 0)
        ecReverse := decide (eRead e 14 ≠ 0)
        currentTip := eRead e 15
        numberOfTips := eRead e 16 }, e)
  else
    (s, updateEEPROM s (eUpd (eUpd e 0 231) 1 108))

/-! ### Concrete states used by the closed witness and counterexample
theorems -/

/-- The Vin value observed inside `SENSORCheck` once per 256 ticks, as a
function of the prior state; off-refresh ticks keep the old value. -/
def vinAfter (s : IronState) (inp : IronInputs) : ℕ :=
  if s.sensorCounter = 0 then getVIN inp.vinSamples s.vcc else s.vin

/-- The cold-junction temperature in effect after the occasional refresh. -/
def coreCJ (s : IronState) (inp : IronInputs) : ℚ :=
  if s.sensorCounter = 0 then (getColdJ inp.coldj : ℚ) else s.cjTemp

/-- The tip temperature computed during a `SENSORCheck` tick. -/
def coreTemp (s : IronState) (inp : IronInputs) : ℚ :=
  calculateTempVal ((denoiseAnalog inp.tip : ℕ) : ℚ) (coreCJ s inp)

/-- The displayed temperature at the end of a `SENSORCheck` tick. -/
def coreShowTemp (s : IronState) (inp : IronInputs) : ℕ :=
  showSmooth s.showTemp s.setpoint (coreTemp s inp)

/-- A concrete running state about to observe an implausible sensor
reading. -/
def ironFaultState : IronState where
  heaterPin := 0
  output := 255
  rawTemp := 300
  currentTemp := 300
  cjTemp := 2509 / 100
  showTemp := 320
  setTemp := 320
  setpoint := 320
  vin := 15000
  vcc := 5000
  sensorCounter := 5
  isWorky := false
  beepIfWorky := true
  tipIsPresent := true
  inSleepMode := false
  inOffMode := false
  inBoostMode := false
  sleepTemp := 150
  boostTemp := 50
  pidEnable := false

/-- Sample streams of a tick whose tip reading is pegged at the ADC maximum
(sensor disconnected). -/
def ironFaultInputs : IronInputs where
  reed := fun _ => 64
  tip := fun _ => 750
  coldj := fun _ => 0
  vinSamples := fun _ => 0

/-- A concrete running state whose supply voltage is below the safety
threshold. -/
def ironOkState : IronState where
  heaterPin := 0
  output := 255
  rawTemp := 300
  currentTemp := 300
  cjTemp := 2509 / 100
  showTemp := 320
  setTemp := 320
  setpoint := 320
  vin := 9000
  vcc := 5000
  sensorCounter := 5
  isWorky := false
  beepIfWorky := true
  tipIsPresent := true
  inSleepMode := false
  inOffMode := false
  inBoostMode := false
  sleepTemp := 150
  boostTemp := 50
  pidEnable := false

/-- Sample streams of an ordinary tick (plausible tip reading). -/
def ironOkInputs : IronInputs where
  reed := fun _ => 64
  tip := fun _ => 250
  coldj := fun _ => 0
  vinSamples := fun _ => 0

/-- The rotary state right after
`setRotary(TEMP_MIN, TEMP_MAX, TEMP_STEP, DefaultTemp)`. -/
def rotConfigured : RotaryState := setRotary rotInit false 150 400 10 320

/-- An EEPROM image carrying the format identifier and zeroes elsewhere. -/
def identEeprom : Eeprom := fun a => if a = 0 then 231 else if a = 1 then 108 else 0

/-- An all-zero EEPROM image (mismatched identifier). -/
def zeroEeprom : Eeprom := fun _ => 0

/-! ## Helper lemmas -/

theorem foldl_mod_eq_sum (l : List ℕ) (acc : ℕ) (h : acc + l.sum < 65536) :
    l.foldl (fun a x => (a + x) % 65536) acc = acc + l.sum := by
  induction l generalizing acc with
  | nil => simp
  | cons x xs ih =>
    have hs : (acc + x) + xs.sum < 65536 := by simp only [List.sum_cons] at h; omega
    have hx : (acc + x) % 65536 = acc + x := Nat.mod_eq_of_lt (by omega)
    simp only [List.foldl_cons, hx]
    rw [ih _ hs]
    simp only [List.sum_cons]
    omega

theorem adcAccum_eq_sum {n : ℕ} (samples : Fin n → ℕ) (h : (∑ i, samples i) < 65536) :
    adcAccum samples = ∑ i, samples i := by
  have hs : ((List.finRange n).map samples).sum = ∑ i, samples i :=
    (Fin.sum_univ_def samples).symm
  have h2 := foldl_mod_eq_sum ((List.finRange n).map samples) 0
    (by rw [Nat.zero_add, hs]; exact h)
  rw [List.foldl_map, Nat.zero_add, hs] at h2
  exact h2

theorem sum_le_of_samples_le {n b : ℕ} (samples : Fin n → ℕ) (h : ∀ i, samples i ≤ b) :
    (∑ i, samples i) ≤ n * b := by
  calc (∑ i, samples i) ≤ ∑ _i : Fin n, b := Finset.sum_le_sum fun i _ => h i
  _ = n * b := by simp [Finset.sum_const, Finset.card_fin, Nat.smul_one_eq_cast]

/-! ## Claims C9 and C10: analog acquisition -/

/-- Claim C10 (confirmed): with 10-bit conversion results (each at most
1023), the 16-bit accumulator of `denoiseAnalog` cannot wrap — the sum is
at most 32736 < 2^16 — so the returned value is exactly the floor of the
arithmetic mean of the 32 samples. -/
theorem c10_theorem (samples : Fin 32 → ℕ) (h : ∀ i, samples i ≤ 1023) :
    (∑ i, samples i) ≤ 32736 ∧ denoiseAnalog samples = (∑ i, samples i) / 32 := by
  have hb : (∑ i, samples i) ≤ 32736 := by
    have := sum_le_of_samples_le samples h
    omega
  exact ⟨hb, by unfold denoiseAnalog; rw [adcAccum_eq_sum _ (by omega)]⟩

theorem c10_witness : denoiseAnalog (fun _ => 1000) = 1000 := by
  have h := (c10_theorem (fun _ => 1000) (by decide)).2
  rw [h]
  decide

/-- Claim C9 (counterexample): the chip-temperature acquisition loop takes
32 conversions but right-shifts the accumulated sum by 2, not by
log2(32) = 5: with all 32 samples equal to 4 it yields 32, while the
arithmetic mean claimed by the spec is 4. -/
theorem c9_counterexample :
    getChipTempAccum (fun _ => 4) = 32 ∧
    adcAccum (fun _ : Fin 32 => (4 : ℕ)) / 32 = 4 ∧
    getChipTempAccum (fun _ => 4) ≠ adcAccum (fun _ : Fin 32 => (4 : ℕ)) / 32 := by
  refine ⟨by decide, by decide, by decide⟩

/-- Claim C9 (amended): each acquisition path accumulates its conversions in
a 16-bit sum that cannot wrap for 10-bit samples; `denoiseAnalog` (used
for the tip-sensor, presence/reed and cold-junction channels) takes 32
conversions and right-shifts by 5 (the arithmetic mean), the
supply-voltage self-reference in `getVCC` takes 16 conversions and shifts
by 4 (the arithmetic mean), but the chip-temperature channel takes 32
conversions and shifts by only 2, retaining a sum of four times the mean
for its downstream conversion formula. -/
theorem c9_theorem (s32 c32 : Fin 32 → ℕ) (v16 : Fin 16 → ℕ)
    (h32 : ∀ i, s32 i ≤ 1023) (hc : ∀ i, c32 i ≤ 1023) (hv : ∀ i, v16 i ≤ 1023) :
    denoiseAnalog s32 = (∑ i, s32 i) / 32 ∧
    getVCCAccum v16 = (∑ i, v16 i) / 16 ∧
    getChipTempAccum c32 = (∑ i, c32 i) / 4 := by
  have b32 := sum_le_of_samples_le s32 h32
  have bc := sum_le_of_samples_le c32 hc
  have bv := sum_le_of_samples_le v16 hv
  refine ⟨?_, ?_, ?_⟩
  · unfold denoiseAnalog; rw [adcAccum_eq_sum _ (by omega)]
  · unfold getVCCAccum; rw [adcAccum_eq_sum _ (by omega)]
  · unfold getChipTempAccum; rw [adcAccum_eq_sum _ (by omega)]

theorem c9_witness :
    denoiseAnalog (fun _ => 8) = 8 ∧ getVCCAccum (fun _ => 8) = 8 ∧
    getChipTempAccum (fun _ => 8) = 64 := by
  have h := c9_theorem (fun _ => 8) (fun _ => 8) (fun _ => 8) (by decide) (by decide) (by decide)
  refine ⟨?_, ?_, ?_⟩
  · rw [h.1]; decide
  · rw [h.2.1]; decide
  · rw [h.2.2]; decide

/-! ## Claims C6 and C7: quadrature decoder -/

theorem constrain_mem (x lo hi : ℤ) (h : lo ≤ hi) :
    lo ≤ constrain x lo hi ∧ constrain x lo hi ≤ hi := by
  unfold constrain
  split_ifs <;> omega

theorem isrStep_bounds_eq (st : RotaryState) (a b : ℕ) :
    (isrStep st a b).countMin = st.countMin ∧ (isrStep st a b).countMax = st.countMax := by
  unfold isrStep
  dsimp only
  split_ifs <;> exact ⟨rfl, rfl⟩

theorem isrStep_count_mem (st : RotaryState) (a b : ℕ)
    (h1 : st.countMin ≤ st.count) (h2 : st.count ≤ st.countMax) :
    st.countMin ≤ (isrStep st a b).count ∧ (isrStep st a b).count ≤ st.countMax := by
  have hle : st.countMin ≤ st.countMax := le_trans h1 h2
  unfold isrStep
  dsimp only
  split_ifs <;> first
    | exact ⟨h1, h2⟩
    | exact constrain_mem _ _ _ hle

/-- Claim C7 (confirmed): starting from a position within the configured
bounds, every sequence of encoder phase-change interrupts leaves the
position within `[countMin, countMax]` (each single and double step of the
handler is passed through `constrain`), and the bounds themselves are
never changed by the handler.  Since this holds for every edge list, it
holds after every prefix of a run, i.e. after every edge. -/
theorem c7_theorem (st : RotaryState) (edges : List (ℕ × ℕ))
    (h1 : st.countMin ≤ st.count) (h2 : st.count ≤ st.countMax) :
    st.countMin ≤ (isrRun st edges).count ∧ (isrRun st edges).count ≤ st.countMax ∧
    (isrRun st edges).countMin = st.countMin ∧ (isrRun st edges).countMax = st.countMax := by
  induction edges generalizing st with
  | nil => exact ⟨h1, h2, rfl, rfl⟩
  | cons e es ih =>
    have hb := isrStep_bounds_eq st e.1 e.2
    have hc := isrStep_count_mem st e.1 e.2 h1 h2
    have hrun : isrRun st (e :: es) = isrRun (isrStep st e.1 e.2) es := rfl
    have hrec := ih (isrStep st e.1 e.2) (by rw [hb.1]; exact hc.1) (by rw [hb.2]; exact hc.2)
    rw [hrun]
    rw [hb.1, hb.2] at hrec
    exact hrec

theorem c7_witness :
    rotConfigured.countMin ≤ rotConfigured.count ∧
    rotConfigured.count ≤ rotConfigured.countMax ∧
    rotConfigured.countMin ≤ (isrRun rotConfigured [(1, 1), (0, 1), (1, 0), (0, 0)]).count ∧
    (isrRun rotConfigured [(1, 1), (0, 1), (1, 0), (0, 0)]).count ≤ rotConfigured.countMax := by
  have h := c7_theorem rotConfigured [(1, 1), (0, 1), (1, 0), (0, 0)] (by decide) (by decide)
  exact ⟨by decide, by decide, h.1, h.2.1⟩

/-- Claim C6 (counterexample): `setRotary` stores the scaled initial value
without any clamping, so an initial value outside `[min, max]` is read
back verbatim rather than clamped: after `setRotary(0, 10, 1, 20)`,
`getRotary()` returns 20 while the claimed `clamp(20, 0, 10)` is 10. -/
theorem c6_counterexample :
    getRotary (setRotary rotInit false 0 10 1 20) = 20 ∧
    clampSpec 20 0 10 = 10 ∧
    getRotary (setRotary rotInit false 0 10 1 20) ≠ clampSpec 20 0 10 := by
  refine ⟨by decide, by decide, by decide⟩

/-- Claim C6 (amended): `setRange(min, max, step, v)` followed by `read()`
with no intervening encoder edges returns `v` itself, unclamped (for any
`v` whose doubled value fits the 16-bit counter); it agrees with the
spec's `clamp(v, min, max)` only when `v` already lies within
`[min, max]`.  Clamping is applied only by the interrupt handler's edge
steps. -/
theorem c6_theorem (st : RotaryState) (ecRev : Bool) (rmin rmax rstep v : ℤ)
    (hlo : -16384 ≤ v) (hhi : v ≤ 16383) :
    getRotary (setRotary st ecRev rmin rmax rstep v) = v ∧
    (rmin ≤ v → v ≤ rmax →
      getRotary (setRotary st ecRev rmin rmax rstep v) = clampSpec v rmin rmax) := by
  have hw : wrap16 (v * 2) = v * 2 := by unfold wrap16; omega
  have hg : getRotary (setRotary st ecRev rmin rmax rstep v) = v := by
    unfold getRotary setRotary
    dsimp only
    rw [hw, mul_comm]
    exact Int.mul_fdiv_cancel_left v (by norm_num)
  refine ⟨hg, fun hmin hmax => ?_⟩
  rw [hg]
  unfold clampSpec
  omega

theorem c6_witness :
    (-16384 : ℤ) ≤ 320 ∧ (320 : ℤ) ≤ 16383 ∧
    getRotary (setRotary rotInit false 150 400 10 320) = 320 :=
  ⟨by norm_num, by norm_num,
   (c6_theorem rotInit false 150 400 10 320 (by norm_num) (by norm_num)).1⟩

/-! ## Claims C1, C2 and C3: sensor check and thermostat -/

theorem hOff_heaterPin (s : IronState) : (sensorStepHeaterOff s).heaterPin = 255 := rfl
theorem hOff_vin (s : IronState) : (sensorStepHeaterOff s).vin = s.vin := rfl
theorem hOff_output (s : IronState) : (sensorStepHeaterOff s).output = s.output := rfl
theorem hOff_counter (s : IronState) :
    (sensorStepHeaterOff s).sensorCounter = s.sensorCounter := rfl
theorem hOff_cj (s : IronState) : (sensorStepHeaterOff s).cjTemp = s.cjTemp := rfl
theorem hOff_vcc (s : IronState) : (sensorStepHeaterOff s).vcc = s.vcc := rfl
theorem hOff_show (s : IronState) : (sensorStepHeaterOff s).showTemp = s.showTemp := rfl
theorem hOff_setpoint (s : IronState) : (sensorStepHeaterOff s).setpoint = s.setpoint := rfl

theorem sleep_heaterPin (s : IronState) (r : ℕ) :
    (SLEEPCheck s r).heaterPin = s.heaterPin := by
  unfold SLEEPCheck; split_ifs <;> rfl
theorem sleep_vin (s : IronState) (r : ℕ) : (SLEEPCheck s r).vin = s.vin := by
  unfold SLEEPCheck; split_ifs <;> rfl
theorem sleep_output (s : IronState) (r : ℕ) : (SLEEPCheck s r).output = s.output := by
  unfold SLEEPCheck; split_ifs <;> rfl
theorem sleep_counter (s : IronState) (r : ℕ) :
    (SLEEPCheck s r).sensorCounter = s.sensorCounter := by
  unfold SLEEPCheck; split_ifs <;> rfl
theorem sleep_cj (s : IronState) (r : ℕ) : (SLEEPCheck s r).cjTemp = s.cjTemp := by
  unfold SLEEPCheck; split_ifs <;> rfl
theorem sleep_vcc (s : IronState) (r : ℕ) : (SLEEPCheck s r).vcc = s.vcc := by
  unfold SLEEPCheck; split_ifs <;> rfl
theorem sleep_show (s : IronState) (r : ℕ) : (SLEEPCheck s r).showTemp = s.showTemp := by
  unfold SLEEPCheck; split_ifs <;> rfl
theorem sleep_setpoint (s : IronState) (r : ℕ) : (SLEEPCheck s r).setpoint = s.setpoint := by
  unfold SLEEPCheck; split_ifs <;> rfl

theorem vinCJ_vin (s : IronState) (inp : IronInputs) :
    (sensorStepVinCJ s inp).vin =
      (if s.sensorCounter = 0 then getVIN inp.vinSamples s.vcc else s.vin) := by
  unfold sensorStepVinCJ; split_ifs <;> rfl
theorem vinCJ_cj (s : IronState) (inp : IronInputs) :
    (sensorStepVinCJ s inp).cjTemp =
      (if s.sensorCounter = 0 then (getColdJ inp.coldj : ℚ) else s.cjTemp) := by
  unfold sensorStepVinCJ; split_ifs <;> rfl
theorem vinCJ_heaterPin (s : IronState) (inp : IronInputs) :
    (sensorStepVinCJ s inp).heaterPin = s.heaterPin := by
  unfold sensorStepVinCJ; split_ifs <;> rfl
theorem vinCJ_output (s : IronState) (inp : IronInputs) :
    (sensorStepVinCJ s inp).output = s.output := by
  unfold sensorStepVinCJ; split_ifs <;> rfl
theorem vinCJ_show (s : IronState) (inp : IronInputs) :
    (sensorStepVinCJ s inp).showTemp = s.showTemp := by
  unfold sensorStepVinCJ; split_ifs <;> rfl
theorem vinCJ_setpoint (s : IronState) (inp : IronInputs) :
    (sensorStepVinCJ s inp).setpoint = s.setpoint := by
  unfold sensorStepVinCJ; split_ifs <;> rfl

theorem hOn_vin (s : IronState) : (sensorStepHeaterOn s).vin = s.vin := by
  unfold sensorStepHeaterOn; split_ifs <;> rfl
theorem hOn_heaterPin (s : IronState) :
    (sensorStepHeaterOn s).heaterPin =
      (if 11000 < s.vin then heaterPWMpin s.output else s.heaterPin) := by
  unfold sensorStepHeaterOn; split_ifs <;> rfl
theorem hOn_cj (s : IronState) : (sensorStepHeaterOn s).cjTemp = s.cjTemp := by
  unfold sensorStepHeaterOn; split_ifs <;> rfl
theorem hOn_show (s : IronState) : (sensorStepHeaterOn s).showTemp = s.showTemp := by
  unfold sensorStepHeaterOn; split_ifs <;> rfl
theorem hOn_setpoint (s : IronState) : (sensorStepHeaterOn s).setpoint = s.setpoint := by
  unfold sensorStepHeaterOn; split_ifs <;> rfl

theorem temp_vin (s : IronState) (t : ℕ) : (sensorStepTemp s t).vin = s.vin := rfl
theorem temp_heaterPin (s : IronState) (t : ℕ) :
    (sensorStepTemp s t).heaterPin = s.heaterPin := rfl
theorem temp_currentTemp (s : IronState) (t : ℕ) :
    (sensorStepTemp s t).currentTemp = calculateTempVal (t : ℚ) s.cjTemp := rfl
theorem temp_show (s : IronState) (t : ℕ) : (sensorStepTemp s t).showTemp = s.showTemp := rfl
theorem temp_setpoint (s : IronState) (t : ℕ) :
    (sensorStepTemp s t).setpoint = s.setpoint := rfl

theorem show_vin (s : IronState) : (sensorStepShow s).vin = s.vin := rfl
theorem show_heaterPin (s : IronState) : (sensorStepShow s).heaterPin = s.heaterPin := rfl
theorem show_show (s : IronState) :
    (sensorStepShow s).showTemp = showSmooth s.showTemp s.setpoint s.currentTemp := rfl

theorem worky_vin (s : IronState) : (sensorStepWorky s).vin = s.vin := by
  unfold sensorStepWorky; split_ifs <;> rfl
theorem worky_heaterPin (s : IronState) : (sensorStepWorky s).heaterPin = s.heaterPin := by
  unfold sensorStepWorky; split_ifs <;> rfl
theorem worky_show (s : IronState) : (sensorStepWorky s).showTemp = s.showTemp := by
  unfold sensorStepWorky; split_ifs <;> rfl

/-- `SENSORCheckCore` in terms of its observable pieces: the per-tick Vin,
the heater pin (off unless `Vin > 11000`, in which case it carries the
previous tick's duty), and the smoothed displayed temperature. -/
theorem sensorCore_fields (s : IronState) (inp : IronInputs) :
    (SENSORCheckCore s inp).vin = vinAfter s inp ∧
    (SENSORCheckCore s inp).heaterPin =
      (if 11000 < vinAfter s inp then heaterPWMpin s.output else 255) ∧
    (SENSORCheckCore s inp).showTemp = coreShowTemp s inp := by
  unfold SENSORCheckCore vinAfter coreShowTemp coreTemp coreCJ
  simp only [worky_vin, worky_heaterPin, worky_show, show_vin, show_heaterPin, show_show,
    temp_vin, temp_heaterPin, temp_currentTemp, temp_show, temp_setpoint,
    hOn_vin, hOn_heaterPin, hOn_cj, hOn_show, hOn_setpoint,
    vinCJ_vin, vinCJ_cj, vinCJ_heaterPin, vinCJ_output, vinCJ_show, vinCJ_setpoint,
    sleep_heaterPin, sleep_vin, sleep_output, sleep_counter, sleep_cj, sleep_vcc,
    sleep_show, sleep_setpoint,
    hOff_heaterPin, hOff_vin, hOff_output, hOff_counter, hOff_cj, hOff_vcc,
    hOff_show, hOff_setpoint]
  exact ⟨trivial, trivial, trivial⟩

theorem thermostat_vin (s : IronState) (pid : ℚ) : (Thermostat s pid).vin = s.vin := by
  simp only [Thermostat]
  split_ifs <;> rfl

theorem thermostat_heaterPin_off (s : IronState) (pid : ℚ) (h : s.vin ≤ 11000) :
    (Thermostat s pid).heaterPin = s.heaterPin := by
  simp only [Thermostat]
  rw [if_neg (show ¬ 11000 < s.vin from by omega)]

/-- Claim C2 (confirmed): after each `SENSORCheck`/`Thermostat` tick whose
supply-voltage reading does not exceed 11000 mV, the heater control pin
holds `HEATER_OFF` (so the physical duty is 0), for every prior state,
every sample stream, and whatever duty either control strategy would have
computed (`pid` ranges over all PID outputs; the direct-strategy output is
likewise irrelevant): `SENSORCheck` shuts the heater off before sampling
and both re-enable sites are guarded by `Vin > 11000`. -/
theorem c2_theorem (s : IronState) (inp : IronInputs) (pid : ℚ)
    (hv : (SENSORCheckCore s inp).vin ≤ 11000) :
    (Thermostat (SENSORCheckCore s inp) pid).heaterPin = 255 ∧
    heaterDuty (Thermostat (SENSORCheckCore s inp) pid) = 0 := by
  have hcore := sensorCore_fields s inp
  have h1 : (SENSORCheckCore s inp).heaterPin = 255 := by
    rw [hcore.2.1, if_neg (by rw [hcore.1] at hv; omega)]
  have h2 := thermostat_heaterPin_off (SENSORCheckCore s inp) pid hv
  rw [h2, h1]
  exact ⟨rfl, by unfold heaterDuty; rw [h2, h1]⟩

theorem coreOk_vin : (SENSORCheckCore ironOkState ironOkInputs).vin ≤ 11000 := by
  rw [(sensorCore_fields ironOkState ironOkInputs).1]
  decide

theorem c2_witness :
    (SENSORCheckCore ironOkState ironOkInputs).vin ≤ 11000 ∧
    heaterDuty (Thermostat (SENSORCheckCore ironOkState ironOkInputs) 200) = 0 :=
  ⟨coreOk_vin, (c2_theorem ironOkState ironOkInputs 200 coreOk_vin).2⟩

theorem faultStep_showTemp_iter (x : IronState) (k : ℕ) :
    (sensorFaultStep^[k] x).showTemp = x.showTemp := by
  induction k with
  | zero => rfl
  | succ k ih => rw [Function.iterate_succ_apply']; exact ih

theorem faultStep_modes_iter (x : IronState) (k : ℕ) :
    (sensorFaultStep^[k] x).inSleepMode = x.inSleepMode ∧
    (sensorFaultStep^[k] x).inOffMode = x.inOffMode ∧
    (sensorFaultStep^[k] x).inBoostMode = x.inBoostMode := by
  induction k with
  | zero => exact ⟨rfl, rfl, rfl⟩
  | succ k ih => rw [Function.iterate_succ_apply']; exact ih

/-- Claim C1 (amended): whenever the computed displayed temperature exceeds
500, the heater output is forced off and this takes priority over all
mode logic (the statement quantifies over every state, hence every mode),
and the mode flags are unaffected; however the fault is NOT recovered
locally: `SENSORCheck` enters its final `while (ShowTemp > 500)` loop,
whose body only shuts the heater off and beeps and never re-reads the
sensor, so `ShowTemp` never changes, the loop never exits (modelled as
`none`), and control never proceeds even after the physical reading
returns to a plausible range. -/
theorem c1_theorem (s : IronState) (inp : IronInputs)
    (h : 500 < (SENSORCheckCore s inp).showTemp) :
    SENSORCheck s inp = none ∧
    ∀ k : ℕ,
      heaterDuty (sensorFaultStep^[k + 1] (SENSORCheckCore s inp)) = 0 ∧
      500 < (sensorFaultStep^[k] (SENSORCheckCore s inp)).showTemp ∧
      (sensorFaultStep^[k] (SENSORCheckCore s inp)).inSleepMode =
        (SENSORCheckCore s inp).inSleepMode ∧
      (sensorFaultStep^[k] (SENSORCheckCore s inp)).inOffMode =
        (SENSORCheckCore s inp).inOffMode ∧
      (sensorFaultStep^[k] (SENSORCheckCore s inp)).inBoostMode =
        (SENSORCheckCore s inp).inBoostMode := by
  refine ⟨by unfold SENSORCheck; rw [if_pos h], fun k => ?_⟩
  have hm := faultStep_modes_iter (SENSORCheckCore s inp) k
  refine ⟨?_, ?_, hm.1, hm.2.1, hm.2.2⟩
  · rw [Function.iterate_succ_apply']
    rfl
  · rw [faultStep_showTemp_iter]
    exact h

theorem coreFault_showTemp :
    (SENSORCheckCore ironFaultState ironFaultInputs).showTemp = 636 := by
  rw [(sensorCore_fields ironFaultState ironFaultInputs).2.2]
  have ht : denoiseAnalog ironFaultInputs.tip = 750 := by decide
  unfold coreShowTemp coreTemp coreCJ showSmooth
  rw [ht]
  norm_num [ironFaultState, calculateTempVal, ratAbs, toU16, ratFloor,
    show (Int.toNat 636 % 65536 : ℕ) = 636 from rfl,
    show (Int.toNat 320 % 65536 : ℕ) = 320 from rfl]

theorem coreFault_gt : 500 < (SENSORCheckCore ironFaultState ironFaultInputs).showTemp := by
  rw [coreFault_showTemp]
  norm_num

theorem c1_witness :
    500 < (SENSORCheckCore ironFaultState ironFaultInputs).showTemp ∧
    SENSORCheck ironFaultState ironFaultInputs = none ∧
    heaterDuty (sensorFaultStep^[2 + 1] (SENSORCheckCore ironFaultState ironFaultInputs)) = 0 :=
  ⟨coreFault_gt, (c1_theorem ironFaultState ironFaultInputs coreFault_gt).1,
   ((c1_theorem ironFaultState ironFaultInputs coreFault_gt).2 2).1⟩

/-- Claim C1 (counterexample): a tick whose tip channel reads 750 drives the
displayed temperature to 636 > 500, after which `SENSORCheck` never
returns (`none`): the fault-loop body keeps the heater off but leaves
`ShowTemp` untouched, so — contrary to the claim — control does not
proceed once the reading returns to a plausible range; the fault is
fatal, not locally recovered. -/
theorem c1_counterexample :
    SENSORCheck ironFaultState ironFaultInputs = none ∧
    (SENSORCheckCore ironFaultState ironFaultInputs).showTemp = 636 ∧
    (sensorFaultStep (SENSORCheckCore ironFaultState ironFaultInputs)).showTemp = 636 ∧
    heaterDuty (sensorFaultStep (SENSORCheckCore ironFaultState ironFaultInputs)) = 0 := by
  refine ⟨?_, coreFault_showTemp, coreFault_showTemp, rfl⟩
  unfold SENSORCheck
  rw [if_pos coreFault_gt]

/-- Claim C3 (confirmed): with the direct strategy selected, `Thermostat`
computes its duty purely from the current temperature and the mode
setpoint (no state is carried between ticks), selecting from the fixed
ladder by the gap `setpoint - currentTemp`: gap > 50 gives 255,
50 ≥ gap > 25 gives 128, 25 ≥ gap > 5 gives 32, 5 ≥ gap > 0.5 gives 8,
and gap ≤ 0.5 gives 0; in particular gaps of 20, 26, 51 and 0.3 give
32, 128, 255 and 0 respectively. -/
theorem c3_theorem (c sp : ℚ) (s : IronState) (pid : ℚ) (hp : s.pidEnable = false) :
    (Thermostat s pid).output = directOutput s.currentTemp (setpointOf s) ∧
    (50 < sp - c → directOutput c sp = 255) ∧
    (25 < sp - c → sp - c ≤ 50 → directOutput c sp = 128) ∧
    (5 < sp - c → sp - c ≤ 25 → directOutput c sp = 32) ∧
    (1 / 2 < sp - c → sp - c ≤ 5 → directOutput c sp = 8) ∧
    (sp - c ≤ 1 / 2 → directOutput c sp = 0) ∧
    directOutput c (c + 20) = 32 ∧ directOutput c (c + 26) = 128 ∧
    directOutput c (c + 51) = 255 ∧ directOutput c (c + 3 / 10) = 0 := by
  refine ⟨?_, ?_, ?_, ?_, ?_, ?_, ?_, ?_, ?_, ?_⟩
  · simp only [Thermostat, hp, Bool.false_eq_true, if_false]
    split_ifs <;> rfl
  · intro h
    unfold directOutput
    rw [if_pos (by linarith)]
  · intro h h2
    unfold directOutput
    rw [if_neg (by linarith), if_pos (by linarith)]
  · intro h h2
    unfold directOutput
    rw [if_neg (by linarith), if_neg (by linarith), if_pos (by linarith)]
  · intro h h2
    unfold directOutput
    rw [if_neg (by linarith), if_neg (by linarith), if_neg (by linarith),
      if_pos (by linarith)]
  · intro h
    unfold directOutput
    rw [if_neg (by linarith), if_neg (by linarith), if_neg (by linarith),
      if_neg (by linarith)]
  · unfold directOutput
    rw [if_neg (by linarith), if_neg (by linarith), if_pos (by linarith)]
  · unfold directOutput
    rw [if_neg (by linarith), if_pos (by linarith)]
  · unfold directOutput
    rw [if_pos (by linarith)]
  · unfold directOutput
    rw [if_neg (by linarith), if_neg (by linarith), if_neg (by linarith),
      if_neg (by linarith)]

theorem c3_witness :
    ironOkState.pidEnable = false ∧ directOutput 300 320 = 32 :=
  ⟨rfl, (c3_theorem 300 320 ironOkState 0 rfl).2.2.2.1 (by norm_num) (by norm_num)⟩

/-! ## Claim C4: calibration commit -/

/-- Claim C4 (confirmed): once the store menu is confirmed, the calibration
candidate is accepted exactly when `point0 + 10 < point1` and
`point1 + 10 < point2` (the 16-bit additions do not wrap for `uint16_t`
candidates below 65526); on acceptance the stored row is replaced by the
three points with the chip temperature recorded as the fourth value, and
on rejection the stored row is unchanged.  In particular (216, 308, 390)
passes validation while (216, 220, 390) and (216, 308, 315) fail. -/
theorem c4_theorem (stored : ℕ → ℕ) (p0 p1 p2 chip : ℕ)
    (h0 : p0 + 10 < 65536) (h1 : p1 + 10 < 65536) :
    (calibValid p0 p1 p2 = true ↔ (p0 + 10 < p1 ∧ p1 + 10 < p2)) ∧
    (p0 + 10 < p1 → p1 + 10 < p2 →
      calibCommit stored p0 p1 p2 chip true =
        fun j => if j = 0 then p0 else if j = 1 then p1 else if j = 2 then p2
                 else if j = 3 then chip else stored j) ∧
    (¬(p0 + 10 < p1 ∧ p1 + 10 < p2) → calibCommit stored p0 p1 p2 chip true = stored) ∧
    calibValid 216 308 390 = true ∧ calibValid 216 220 390 = false ∧
    calibValid 216 308 315 = false := by
  have hm0 : (p0 + 10) % 65536 = p0 + 10 := Nat.mod_eq_of_lt h0
  have hm1 : (p1 + 10) % 65536 = p1 + 10 := Nat.mod_eq_of_lt h1
  have hiff : calibValid p0 p1 p2 = true ↔ (p0 + 10 < p1 ∧ p1 + 10 < p2) := by
    unfold calibValid
    rw [hm0, hm1]
    simp [Bool.and_eq_true, decide_eq_true_eq]
  refine ⟨hiff, fun ha hb => ?_, fun hab => ?_, by decide, by decide, by decide⟩
  · unfold calibCommit
    rw [if_pos (hiff.mpr ⟨ha, hb⟩), if_pos rfl]
  · unfold calibCommit
    rw [if_neg (fun hc => hab (hiff.mp hc))]

theorem c4_witness :
    216 + 10 < 65536 ∧ 308 + 10 < 65536 ∧
    calibValid 216 308 390 = true ∧
    calibCommit (fun _ => 0) 216 308 390 30 true =
      fun j => if j = 0 then 216 else if j = 1 then 308 else if j = 2 then 390
               else if j = 3 then 30 else 0 := by
  have h := c4_theorem (fun _ => 0) 216 308 390 30 (by norm_num) (by norm_num)
  exact ⟨by norm_num, by norm_num, h.2.2.2.1, h.2.1 (by norm_num) (by norm_num)⟩

/-! ## Claim C5: tip-profile store capacity bounds -/

/-- Claim C5 (confirmed): `AddTipScreen` on a store already holding 8
profiles (the capacity `TIPMAX`) changes nothing — not the count, not the
selection, not any stored name or calibration value — and
`DeleteTipScreen` on a store holding exactly one profile likewise returns
the store unchanged regardless of the confirmation answer. -/
theorem c5_theorem (s : Settings) (newName : ℕ → ℕ) (confirm : Bool) :
    (s.numberOfTips = 8 → AddTipScreen s newName = s) ∧
    (s.numberOfTips = 1 → DeleteTipScreen s confirm = s) := by
  constructor
  · intro h
    unfold AddTipScreen
    rw [if_neg (by omega)]
  · intro h
    unfold DeleteTipScreen
    rw [if_pos h]

theorem c5_witness :
    (settingsFull.numberOfTips = 8 ∧ AddTipScreen settingsFull (fun _ => 65) = settingsFull) ∧
    (defaultSettings.numberOfTips = 1 ∧ DeleteTipScreen defaultSettings true = defaultSettings) :=
  ⟨⟨rfl, (c5_theorem settingsFull (fun _ => 65) true).1 rfl⟩,
   ⟨rfl, (c5_theorem defaultSettings (fun _ => 65) true).2 rfl⟩⟩

/-! ## Claim C8: EEPROM persistence round trip -/

theorem eRead_eUpd (e : Eeprom) (a v b : ℕ) :
    eRead (eUpd e a v) b = if b = a then v % 256 else eRead e b := by
  unfold eRead eUpd
  split_ifs <;> omega

theorem eRead_lt (e : Eeprom) (a : ℕ) : eRead e a < 256 :=
  Nat.mod_lt _ (by omega)

/-- Reading outside a tip's 14-byte window passes through its write. -/
theorem eRead_updateTip_out (s : Settings) (i : ℕ) (e : Eeprom) (a : ℕ)
    (h : a < 17 + 14 * i ∨ 17 + 14 * i + 14 ≤ a) :
    eRead (updateTip s i e) a = eRead e a := by
  unfold updateTip
  simp only [eRead_eUpd]
  repeat rw [if_neg (by omega)]

theorem eRead_updateTip_name (s : Settings) (i : ℕ) (e : Eeprom) (j : ℕ) (hj : j < 6) :
    eRead (updateTip s i e) (17 + 14 * i + j) = s.tipName i j % 256 := by
  unfold updateTip
  simp only [eRead_eUpd]
  interval_cases j <;>
    (repeat rw [if_neg (by omega)]) <;> rw [if_pos (by omega)]

theorem eRead_updateTip_calHi (s : Settings) (i : ℕ) (e : Eeprom) (j : ℕ) (hj : j < 4) :
    eRead (updateTip s i e) (17 + 14 * i + 6 + 2 * j) = s.calTemp i j / 256 % 256 := by
  unfold updateTip
  simp only [eRead_eUpd]
  interval_cases j <;>
    (repeat rw [if_neg (by omega)]) <;> rw [if_pos (by omega)]

theorem eRead_updateTip_calLo (s : Settings) (i : ℕ) (e : Eeprom) (j : ℕ) (hj : j < 4) :
    eRead (updateTip s i e) (17 + 14 * i + 7 + 2 * j) = s.calTemp i j % 256 := by
  unfold updateTip
  simp only [eRead_eUpd]
  interval_cases j <;>
    (repeat rw [if_neg (by omega)]) <;> rw [if_pos (by omega)]

theorem eRead_updateTips_low (s : Settings) (n : ℕ) (e : Eeprom) (a : ℕ) (h : a < 17) :
    eRead (updateTips s n e) a = eRead e a := by
  induction n with
  | zero => rfl
  | succ n ih =>
    show eRead (updateTip s n (updateTips s n e)) a = eRead e a
    rw [eRead_updateTip_out _ _ _ _ (by omega), ih]

theorem eRead_updateTips_name (s : Settings) (n i j : ℕ) (e : Eeprom)
    (hi : i < n) (hj : j < 6) :
    eRead (updateTips s n e) (17 + 14 * i + j) = s.tipName i j % 256 := by
  induction n with
  | zero => omega
  | succ n ih =>
    show eRead (updateTip s n (updateTips s n e)) _ = _
    rcases Nat.lt_or_ge i n with hlt | hge
    · rw [eRead_updateTip_out _ _ _ _ (by left; omega)]
      exact ih hlt
    · have : i = n := by omega
      subst this
      exact eRead_updateTip_name s i _ j hj

theorem eRead_updateTips_calHi (s : Settings) (n i j : ℕ) (e : Eeprom)
    (hi : i < n) (hj : j < 4) :
    eRead (updateTips s n e) (17 + 14 * i + 6 + 2 * j) = s.calTemp i j / 256 % 256 := by
  induction n with
  | zero => omega
  | succ n ih =>
    show eRead (updateTip s n (updateTips s n e)) _ = _
    rcases Nat.lt_or_ge i n with hlt | hge
    · rw [eRead_updateTip_out _ _ _ _ (by left; omega)]
      exact ih hlt
    · have : i = n := by omega
      subst this
      exact eRead_updateTip_calHi s i _ j hj

theorem eRead_updateTips_calLo (s : Settings) (n i j : ℕ) (e : Eeprom)
    (hi : i < n) (hj : j < 4) :
    eRead (updateTips s n e) (17 + 14 * i + 7 + 2 * j) = s.calTemp i j % 256 := by
  induction n with
  | zero => omega
  | succ n ih =>
    show eRead (updateTip s n (updateTips s n e)) _ = _
    rcases Nat.lt_or_ge i n with hlt | hge
    · rw [eRead_updateTip_out _ _ _ _ (by left; omega)]
      exact ih hlt
    · have : i = n := by omega
      subst this
      exact eRead_updateTip_calLo s i _ j hj

theorem updateScalars_reads (s : Settings) (e : Eeprom) :
    eRead (updateScalars s e) 0 = eRead e 0 ∧
    eRead (updateScalars s e) 1 = eRead e 1 ∧
    eRead (updateScalars s e) 2 = s.defaultTemp / 256 % 256 ∧
    eRead (updateScalars s e) 3 = s.defaultTemp % 256 ∧
    eRead (updateScalars s e) 4 = s.sleepTemp / 256 % 256 ∧
    eRead (updateScalars s e) 5 = s.sleepTemp % 256 ∧
    eRead (updateScalars s e) 6 = s.boostTemp % 256 ∧
    eRead (updateScalars s e) 7 = s.time2sleep % 256 ∧
    eRead (updateScalars s e) 8 = s.time2off % 256 ∧
    eRead (updateScalars s e) 9 = s.timeOfBoost % 256 ∧
    eRead (updateScalars s e) 10 = s.mainScrType % 256 ∧
    eRead (updateScalars s e) 11 = b2n s.pidEnable % 256 ∧
    eRead (updateScalars s e) 12 = b2n s.beepEnable % 256 ∧
    eRead (updateScalars s e) 13 = b2n s.bodyFlip % 256 ∧
    eRead (updateScalars s e) 14 = b2n s.ecReverse % 256 ∧
    eRead (updateScalars s e) 15 = s.currentTip % 256 ∧
    eRead (updateScalars s e) 16 = s.numberOfTips % 256 := by
  unfold updateScalars
  simp [eRead_eUpd, Nat.mod_mod_of_dvd]

theorem updateScalars_high (s : Settings) (e : Eeprom) (a : ℕ) (h : 17 ≤ a) :
    eRead (updateScalars s e) a = eRead e a := by
  unfold updateScalars
  simp only [eRead_eUpd]
  repeat rw [if_neg (by omega)]

theorem loadTips_scalars (e : Eeprom) (n : ℕ) (s : Settings) :
    (loadTips e n s).defaultTemp = s.defaultTemp ∧
    (loadTips e n s).sleepTemp = s.sleepTemp ∧
    (loadTips e n s).boostTemp = s.boostTemp ∧
    (loadTips e n s).time2sleep = s.time2sleep ∧
    (loadTips e n s).time2off = s.time2off ∧
    (loadTips e n s).timeOfBoost = s.timeOfBoost ∧
    (loadTips e n s).mainScrType = s.mainScrType ∧
    (loadTips e n s).pidEnable = s.pidEnable ∧
    (loadTips e n s).beepEnable = s.beepEnable ∧
    (loadTips e n s).bodyFlip = s.bodyFlip ∧
    (loadTips e n s).ecReverse = s.ecReverse ∧
    (loadTips e n s).currentTip = s.currentTip ∧
    (loadTips e n s).numberOfTips = s.numberOfTips := by
  induction n with
  | zero => exact ⟨rfl, rfl, rfl, rfl, rfl, rfl, rfl, rfl, rfl, rfl, rfl, rfl, rfl⟩
  | succ n ih => exact ih

theorem loadTips_name (e : Eeprom) (n : ℕ) (s : Settings) (i j : ℕ)
    (hi : i < n) (hj : j < 6) :
    (loadTips e n s).tipName i j = eRead e (17 + 14 * i + j) := by
  induction n with
  | zero => omega
  | succ n ih =>
    show (loadTip e n (loadTips e n s)).tipName i j = _
    unfold loadTip
    dsimp only
    rcases Nat.lt_or_ge i n with hlt | hge
    · rw [if_neg (by omega)]
      exact ih hlt
    · have hin : i = n := by omega
      subst hin
      rw [if_pos ⟨rfl, hj⟩]

theorem loadTips_cal (e : Eeprom) (n : ℕ) (s : Settings) (i j : ℕ)
    (hi : i < n) (hj : j < 4) :
    (loadTips e n s).calTemp i j =
      eRead e (17 + 14 * i + 6 + 2 * j) * 256 + eRead e (17 + 14 * i + 7 + 2 * j) := by
  induction n with
  | zero => omega
  | succ n ih =>
    show (loadTip e n (loadTips e n s)).calTemp i j = _
    unfold loadTip
    dsimp only
    rcases Nat.lt_or_ge i n with hlt | hge
    · rw [if_neg (by omega)]
      exact ih hlt
    · have hin : i = n := by omega
      subst hin
      rw [if_pos ⟨rfl, hj⟩]

/-- Claim C8 (confirmed): persisting a settings-plus-tip-store snapshot with
`updateEEPROM` into an image that carries the 2-byte format identifier
and loading it back with `getEEPROM` reproduces every persisted field
exactly — all scalar settings, the four flags, the selection index, the
tip count, and each stored tip's six name bytes and four calibration
values — while leaving the image untouched; loading an image whose
identifier mismatches leaves the in-memory defaults (a single default
tip profile) in place and persists them, identifier included, so a
subsequent load matches. -/
theorem c8_theorem (s c : Settings) (e e2 : Eeprom)
    (hid : readU16 e 0 = eepromIdent)
    (hdt : s.defaultTemp < 65536) (hst : s.sleepTemp < 65536)
    (hbt : s.boostTemp < 256) (ht1 : s.time2sleep < 256) (ht2 : s.time2off < 256)
    (ht3 : s.timeOfBoost < 256) (hms : s.mainScrType < 256)
    (hct : s.currentTip < 256) (hnt : s.numberOfTips < 256)
    (hname : ∀ i < s.numberOfTips, ∀ j < 6, s.tipName i j < 256)
    (hcal : ∀ i < s.numberOfTips, ∀ j < 4, s.calTemp i j < 65536) :
    ((getEEPROM c (updateEEPROM s e)).2 = updateEEPROM s e ∧
     (getEEPROM c (updateEEPROM s e)).1.defaultTemp = s.defaultTemp ∧
     (getEEPROM c (updateEEPROM s e)).1.sleepTemp = s.sleepTemp ∧
     (getEEPROM c (updateEEPROM s e)).1.boostTemp = s.boostTemp ∧
     (getEEPROM c (updateEEPROM s e)).1.time2sleep = s.time2sleep ∧
     (getEEPROM c (updateEEPROM s e)).1.time2off = s.time2off ∧
     (getEEPROM c (updateEEPROM s e)).1.timeOfBoost = s.timeOfBoost ∧
     (getEEPROM c (updateEEPROM s e)).1.mainScrType = s.mainScrType ∧
     (getEEPROM c (updateEEPROM s e)).1.pidEnable = s.pidEnable ∧
     (getEEPROM c (updateEEPROM s e)).1.beepEnable = s.beepEnable ∧
     (getEEPROM c (updateEEPROM s e)).1.bodyFlip = s.bodyFlip ∧
     (getEEPROM c (updateEEPROM s e)).1.ecReverse = s.ecReverse ∧
     (getEEPROM c (updateEEPROM s e)).1.currentTip = s.currentTip ∧
     (getEEPROM c (updateEEPROM s e)).1.numberOfTips = s.numberOfTips ∧
     (∀ i < s.numberOfTips, ∀ j < 6,
        (getEEPROM c (updateEEPROM s e)).1.tipName i j = s.tipName i j) ∧
     (∀ i < s.numberOfTips, ∀ j < 4,
        (getEEPROM c (updateEEPROM s e)).1.calTemp i j = s.calTemp i j)) ∧
    (readU16 e2 0 ≠ eepromIdent →
      (getEEPROM defaultSettings e2).1 = defaultSettings ∧
      (getEEPROM defaultSettings e2).2 =
        updateEEPROM defaultSettings (eUpd (eUpd e2 0 231) 1 108) ∧
      defaultSettings.numberOfTips = 1 ∧
      readU16 (updateEEPROM defaultSettings (eUpd (eUpd e2 0 231) 1 108)) 0 = eepromIdent) := by
  have hlow : ∀ a, a < 17 → eRead (updateEEPROM s e) a = eRead (updateScalars s e) a := by
    intro a ha
    unfold updateEEPROM
    exact eRead_updateTips_low s s.numberOfTips (updateScalars s e) a ha
  obtain ⟨u0, u1, u2, u3, u4, u5, u6, u7, u8, u9, u10, u11, u12, u13, u14, u15, u16⟩ :=
    updateScalars_reads s e
  have hid' : readU16 (updateEEPROM s e) 0 = eepromIdent := by
    unfold readU16 at hid ⊢
    rw [hlow 0 (by omega), hlow 1 (by omega), u0, u1]
    exact hid
  have hcnt : eRead (updateEEPROM s e) 16 = s.numberOfTips := by
    rw [hlow 16 (by omega), u16]
    omega
  constructor
  · unfold getEEPROM
    rw [if_pos hid']
    dsimp only
    rw [hcnt]
    refine ⟨rfl, ?_, ?_, ?_, ?_, ?_, ?_, ?_, ?_, ?_, ?_, ?_, ?_, ?_, ?_, ?_⟩
    · rw [(loadTips_scalars _ _ _).1]
      show readU16 (updateEEPROM s e) 2 = s.defaultTemp
      unfold readU16
      rw [hlow 2 (by omega), hlow 3 (by omega), u2, u3]
      omega
    · rw [(loadTips_scalars _ _ _).2.1]
      show readU16 (updateEEPROM s e) 4 = s.sleepTemp
      unfold readU16
      rw [hlow 4 (by omega), hlow 5 (by omega), u4, u5]
      omega
    · rw [(loadTips_scalars _ _ _).2.2.1]
      show eRead (updateEEPROM s e) 6 = s.boostTemp
      rw [hlow 6 (by omega), u6]
      omega
    · rw [(loadTips_scalars _ _ _).2.2.2.1]
      show eRead (updateEEPROM s e) 7 = s.time2sleep
      rw [hlow 7 (by omega), u7]
      omega
    · rw [(loadTips_scalars _ _ _).2.2.2.2.1]
      show eRead (updateEEPROM s e) 8 = s.time2off
      rw [hlow 8 (by omega), u8]
      omega
    · rw [(loadTips_scalars _ _ _).2.2.2.2.2.1]
      show eRead (updateEEPROM s e) 9 = s.timeOfBoost
      rw [hlow 9 (by omega), u9]
      omega
    · rw [(loadTips_scalars _ _ _).2.2.2.2.2.2.1]
      show eRead (updateEEPROM s e) 10 = s.mainScrType
      rw [hlow 10 (by omega), u10]
      omega
    · rw [(loadTips_scalars _ _ _).2.2.2.2.2.2.2.1]
      show decide (eRead (updateEEPROM s e) 11 ≠ 0) = s.pidEnable
      rw [hlow 11 (by omega), u11]
      cases hb : s.pidEnable <;> simp [b2n]
    · rw [(loadTips_scalars _ _ _).2.2.2.2.2.2.2.2.1]
      show decide (eRead (updateEEPROM s e) 12 ≠ 0) = s.beepEnable
      rw [hlow 12 (by omega), u12]
      cases hb : s.beepEnable <;> simp [b2n]
    · rw [(loadTips_scalars _ _ _).2.2.2.2.2.2.2.2.2.1]
      show decide (eRead (updateEEPROM s e) 13 ≠ 0) = s.bodyFlip
      rw [hlow 13 (by omega), u13]
      cases hb : s.bodyFlip <;> simp [b2n]
    · rw [(loadTips_scalars _ _ _).2.2.2.2.2.2.2.2.2.2.1]
      show decide (eRead (updateEEPROM s e) 14 ≠ 0) = s.ecReverse
      rw [hlow 14 (by omega), u14]
      cases hb : s.ecReverse <;> simp [b2n]
    · rw [(loadTips_scalars _ _ _).2.2.2.2.2.2.2.2.2.2.2.1]
      show eRead (updateEEPROM s e) 15 = s.currentTip
      rw [hlow 15 (by omega), u15]
      omega
    · rw [(loadTips_scalars _ _ _).2.2.2.2.2.2.2.2.2.2.2.2]
    · intro i hi j hj
      rw [loadTips_name _ _ _ i j hi hj]
      show eRead (updateEEPROM s e) _ = _
      unfold updateEEPROM
      rw [eRead_updateTips_name s s.numberOfTips i j _ hi hj]
      exact Nat.mod_eq_of_lt (hname i hi j hj)
    · intro i hi j hj
      rw [loadTips_cal _ _ _ i j hi hj]
      show eRead (updateEEPROM s e) _ * 256 + eRead (updateEEPROM s e) _ = _
      unfold updateEEPROM
      rw [eRead_updateTips_calHi s s.numberOfTips i j _ hi hj,
        eRead_updateTips_calLo s s.numberOfTips i j _ hi hj]
      have hv := hcal i hi j hj
      omega
  · intro hne
    unfold getEEPROM
    rw [if_neg hne]
    refine ⟨rfl, rfl, rfl, ?_⟩
    unfold updateEEPROM readU16
    rw [eRead_updateTips_low _ _ _ _ (by omega), eRead_updateTips_low _ _ _ _ (by omega),
      (updateScalars_reads _ _).1, (updateScalars_reads _ _).2.1]
    simp [eRead_eUpd, eepromIdent]

theorem c8_witness :
    readU16 identEeprom 0 = eepromIdent ∧
    readU16 zeroEeprom 0 ≠ eepromIdent ∧
    (getEEPROM defaultSettings (updateEEPROM defaultSettings identEeprom)).1.defaultTemp = 320 ∧
    (getEEPROM defaultSettings zeroEeprom).1 = defaultSettings := by
  have h := c8_theorem defaultSettings defaultSettings identEeprom zeroEeprom (by decide)
    (by decide) (by decide) (by decide) (by decide) (by decide) (by decide) (by decide)
    (by decide) (by decide) (by decide) (by decide)
  refine ⟨by decide, by decide, ?_, (h.2 (by decide)).1⟩
  rw [h.1.2.1]
  rfl

end Solder
